import Mathlib

/-!
# Verification of the memo-challenge progress engine

Shallow embedding of the challenge-progress calculation of `app12.py` and
`app2.py` (repository `kung-is/memo`).

Calendar dates are encoded as integer day numbers with 2025-12-01 = 1, so
`date(2025, 12, d)` is `d` and `date(2026, 1, d)` is `31 + d` (December 2025
has 31 days).  The challenge window spans 2025-12-03 (day 3) to 2026-01-04
(day 35).  Date subtraction `(a - b).days` is the difference of encodings.

A member dataframe row is an `Entry` (date, text).  Python's floating-point
arithmetic on rates is modelled with exact rationals (`Rat`); Python's
`int(...)` truncation toward zero is `pyInt`.  `today` (`date.today()` in
the source) is passed as an explicit parameter.
-/

/-- One row of a member's dataframe: columns 날짜 (date) and 글 내용 (text). -/
structure Entry where
  date : Int
  text : String
deriving Repr, DecidableEq

/-- One element of `CHALLENGE_WEEKS`. `endDate` embeds the `"end"` key. -/
structure Week where
  name : String
  start : Int
  endDate : Int
  goal : Nat
  is_challenge : Bool
deriving Repr, DecidableEq

def WEEKLY_GOAL : Nat := 5

def TOTAL_CHALLENGE_GOAL : Nat := 20

/-- The static week schedule. Dates: 12/3=3, 12/7=7, 12/8=8, 12/14=14,
12/15=15, 12/21=21, 12/22=22, 12/28=28, 12/29=29, 1/4=35. -/
def CHALLENGE_WEEKS : List Week :=
  [ { name := "보너스 주차", start := 3, endDate := 7, goal := 0, is_challenge := false },
    { name := "1주차", start := 8, endDate := 14, goal := WEEKLY_GOAL, is_challenge := true },
    { name := "2주차", start := 15, endDate := 21, goal := WEEKLY_GOAL, is_challenge := true },
    { name := "3주차", start := 22, endDate := 28, goal := WEEKLY_GOAL, is_challenge := true },
    { name := "4주차", start := 29, endDate := 35, goal := WEEKLY_GOAL, is_challenge := true } ]

/-- The value `CHALLENGE_WEEKS[0]["start"]` = 2025-12-03. -/
def CHALLENGE_START_DATE : Int := 3

/-- The value `CHALLENGE_WEEKS[-1]["end"]` = 2026-01-04. -/
def CHALLENGE_END_DATE : Int := 35

/-- One element of the `weekly_status` list built by
`calculate_challenge_status`. -/
structure WeekStatus where
  name : String
  start : Int
  endDate : Int
  written : Nat
  goal : Nat
  rate : Rat
  is_current : Bool
  is_finished : Bool
  is_challenge : Bool
deriving Repr, DecidableEq

/-- The tuple returned by `calculate_challenge_status`. -/
structure ChallengeStatus where
  weekly_status : List WeekStatus
  overall_completion_rate : Rat
  total_written_challenge : Nat
  total_goal : Nat
  written_dates_set : Finset Int
  written_dates : List Int
deriving DecidableEq

/-- The three message shapes `get_motivation_message` can format, with their
numeric payloads (the f-string text around the numbers is fixed). -/
inductive Message where
  | achieved (goal : Nat)
  | onPace (expected surplus : Int)
  | behindPace (expected deficit : Int)
deriving Repr, DecidableEq

/-- Python's `int(...)` on a real number: truncation toward zero. -/
def pyInt (q : Rat) : Int := if 0 ≤ q then ⌊q⌋ else ⌈q⌉

namespace App12

/-- The aggregation stage of `calculate_challenge_status` (app12.py lines
153-167): filter rows to the inclusive challenge window, group by date, keep
the dates where any entry has non-blank stripped text.  The group keys are
the distinct dates carrying at least one non-blank in-window entry; `dedup`
realises that key list (its order is irrelevant to every consumer, which
only counts or tests membership). -/
def written_dates (df_member : List Entry) : List Int :=
  (((df_member.filter
        (fun e => decide (CHALLENGE_START_DATE ≤ e.date ∧ e.date ≤ CHALLENGE_END_DATE))).filter
      (fun e => decide (e.text.trim ≠ ""))).map (fun e => e.date)).dedup

/-- The body of the per-week loop of `calculate_challenge_status`
(app12.py lines 173-205), for one `week_data`. -/
def weekStatus (written_dates_set : Finset Int) (today : Int) (w : Week) : WeekStatus :=
  let effective_week_end := min w.endDate today
  let written_count : Nat :=
    if w.start > today then 0
    else (written_dates_set.filter (fun d => w.start ≤ d ∧ d ≤ effective_week_end)).card
  let is_finished : Bool :=
    if w.start > today then false else decide (w.endDate < today)
  let is_current : Bool :=
    if w.start > today then false
    else decide (w.start ≤ today ∧ today ≤ w.endDate) && !(decide (w.endDate < today))
  let achievement_rate : Rat :=
    if w.goal > 0 then min ((written_count : Rat) / (w.goal : Rat) * 100) 100 else 0
  { name := w.name, start := w.start, endDate := w.endDate, written := written_count,
    goal := w.goal, rate := achievement_rate, is_current := is_current,
    is_finished := is_finished, is_challenge := w.is_challenge }

/-- The loop-and-totals stage of `calculate_challenge_status` (app12.py
lines 168-209), taking the aggregation stage's `written_dates` list. -/
def challenge_loop (wd : List Int) (today : Int) : ChallengeStatus :=
  let wds : Finset Int := wd.toFinset
  let weekly_status := CHALLENGE_WEEKS.map (weekStatus wds today)
  let total_written_challenge : Nat :=
    (weekly_status.map (fun s => if s.is_challenge then s.written else 0)).sum
  let overall_completion_rate : Rat :=
    min ((total_written_challenge : Rat) / (TOTAL_CHALLENGE_GOAL : Rat) * 100) 100
  { weekly_status := weekly_status, overall_completion_rate := overall_completion_rate,
    total_written_challenge := total_written_challenge, total_goal := TOTAL_CHALLENGE_GOAL,
    written_dates_set := wds, written_dates := wd }

/-- Embeds `calculate_challenge_status` of app12.py (lines 150-209).  `today` is
`date.today()`, passed explicitly. -/
def calculate_challenge_status (df_member : List Entry) (today : Int) : ChallengeStatus :=
  challenge_loop (written_dates df_member) today

/-- Embeds `get_motivation_message` of app12.py (lines 96-115): anchored at
`CHALLENGE_WEEKS[1]["start"]` (day 8); elapsed days clamped to ≥ 0 before
the division, and the expected goal clamped to ≥ 0 with `max(0, ...)`. -/
def get_motivation_message (total_written : Int) (total_goal : Nat) (today : Int) : Message :=
  if total_written ≥ (total_goal : Int) then .achieved total_goal
  else
    let elapsed_challenge_days₀ : Int := today - 8 + 1
    let main_challenge_days : Int := 35 - 8 + 1
    let elapsed_challenge_days : Int :=
      if elapsed_challenge_days₀ < 0 then 0 else elapsed_challenge_days₀
    let expected_goal_to_date₀ : Int :=
      pyInt ((TOTAL_CHALLENGE_GOAL : Rat) *
        ((elapsed_challenge_days : Rat) / (main_challenge_days : Rat)))
    let expected_goal_to_date : Int := max 0 expected_goal_to_date₀
    if total_written ≥ expected_goal_to_date then
      .onPace expected_goal_to_date (total_written - expected_goal_to_date)
    else
      .behindPace expected_goal_to_date (expected_goal_to_date - total_written)

end App12

namespace App2

/-- The aggregation stage of `calculate_challenge_status` (app2.py lines
147-161); textually identical to the app12.py variant. -/
def written_dates (df_member : List Entry) : List Int :=
  (((df_member.filter
        (fun e => decide (CHALLENGE_START_DATE ≤ e.date ∧ e.date ≤ CHALLENGE_END_DATE))).filter
      (fun e => decide (e.text.trim ≠ ""))).map (fun e => e.date)).dedup

/-- The body of the per-week loop of `calculate_challenge_status`
(app2.py lines 167-199); textually identical to the app12.py variant. -/
def weekStatus (written_dates_set : Finset Int) (today : Int) (w : Week) : WeekStatus :=
  let effective_week_end := min w.endDate today
  let written_count : Nat :=
    if w.start > today then 0
    else (written_dates_set.filter (fun d => w.start ≤ d ∧ d ≤ effective_week_end)).card
  let is_finished : Bool :=
    if w.start > today then false else decide (w.endDate < today)
  let is_current : Bool :=
    if w.start > today then false
    else decide (w.start ≤ today ∧ today ≤ w.endDate) && !(decide (w.endDate < today))
  let achievement_rate : Rat :=
    if w.goal > 0 then min ((written_count : Rat) / (w.goal : Rat) * 100) 100 else 0
  { name := w.name, start := w.start, endDate := w.endDate, written := written_count,
    goal := w.goal, rate := achievement_rate, is_current := is_current,
    is_finished := is_finished, is_challenge := w.is_challenge }

/-- The loop-and-totals stage of `calculate_challenge_status` (app2.py
lines 162-203); textually identical to the app12.py variant. -/
def challenge_loop (wd : List Int) (today : Int) : ChallengeStatus :=
  let wds : Finset Int := wd.toFinset
  let weekly_status := CHALLENGE_WEEKS.map (weekStatus wds today)
  let total_written_challenge : Nat :=
    (weekly_status.map (fun s => if s.is_challenge then s.written else 0)).sum
  let overall_completion_rate : Rat :=
    min ((total_written_challenge : Rat) / (TOTAL_CHALLENGE_GOAL : Rat) * 100) 100
  { weekly_status := weekly_status, overall_completion_rate := overall_completion_rate,
    total_written_challenge := total_written_challenge, total_goal := TOTAL_CHALLENGE_GOAL,
    written_dates_set := wds, written_dates := wd }

/-- Embeds `calculate_challenge_status` of app2.py (lines 144-203); textually
identical to the app12.py variant. -/
def calculate_challenge_status (df_member : List Entry) (today : Int) : ChallengeStatus :=
  challenge_loop (written_dates df_member) today

/-- Embeds `get_motivation_message` of app2.py (lines 97-111): anchored at
`CHALLENGE_START_DATE` (day 3), no clamp on elapsed days and no
`max(0, ...)` on the expected goal; the multiplier is the `total_goal`
parameter rather than the constant. -/
def get_motivation_message (total_written : Int) (total_goal : Nat) (today : Int) : Message :=
  if total_written ≥ (total_goal : Int) then .achieved total_goal
  else
    let elapsed_days : Int := today - CHALLENGE_START_DATE + 1
    let total_challenge_days : Int := CHALLENGE_END_DATE - CHALLENGE_START_DATE + 1
    let expected_goal_to_date : Int :=
      pyInt ((total_goal : Rat) * ((elapsed_days : Rat) / (total_challenge_days : Rat)))
    if total_written ≥ expected_goal_to_date then
      .onPace expected_goal_to_date (total_written - expected_goal_to_date)
    else
      .behindPace expected_goal_to_date (expected_goal_to_date - total_written)

end App2

/-- The pacing-message computation as the spec words it (section 4.2):
`elapsedDays = (today - challengeStart).days + 1` clamped to ≥ 0,
`totalChallengeDays = (challengeEnd - challengeStart).days + 1`,
`expectedToDate = floor(totalGoal * elapsedDays / totalChallengeDays)`
clamped to ≥ 0. -/
def motivateSpec (totalWritten : Int) (totalGoal : Nat)
    (today challengeStart challengeEnd : Int) : Message :=
  if totalWritten ≥ (totalGoal : Int) then .achieved totalGoal
  else
    let elapsedDays : Int := max 0 (today - challengeStart + 1)
    let totalChallengeDays : Int := challengeEnd - challengeStart + 1
    let expectedToDate : Int :=
      max 0 ⌊(totalGoal : Rat) * (elapsedDays : Rat) / (totalChallengeDays : Rat)⌋
    if totalWritten ≥ expectedToDate then
      .onPace expectedToDate (totalWritten - expectedToDate)
    else
      .behindPace expectedToDate (expectedToDate - totalWritten)

/-! ## Helper lemmas -/

/-- Every week of the static schedule starts no later than it ends. -/
lemma week_start_le_end {w : Week} (hw : w ∈ CHALLENGE_WEEKS) : w.start ≤ w.endDate := by
  fin_cases hw <;> decide

/-- Characterisation of the per-week loop body, for a week whose start is
no later than its end. -/
lemma weekStatus_spec (written : Finset Int) (today : Int) (w : Week)
    (h : w.start ≤ w.endDate) :
    (w.start > today →
        (App12.weekStatus written today w).written = 0 ∧
        (App12.weekStatus written today w).is_current = false ∧
        (App12.weekStatus written today w).is_finished = false) ∧
    (w.start ≤ today →
        (App12.weekStatus written today w).written =
          (written.filter (fun d => w.start ≤ d ∧ d ≤ min w.endDate today)).card) ∧
    ((App12.weekStatus written today w).is_finished = true ↔ w.endDate < today) ∧
    ((App12.weekStatus written today w).is_current = true ↔
        (w.start ≤ today ∧ today ≤ w.endDate ∧
          (App12.weekStatus written today w).is_finished = false)) := by
  simp only [App12.weekStatus]
  split_ifs with hf
  · refine ⟨fun _ => ⟨rfl, rfl, rfl⟩, fun hle => absurd hf (by omega), ?_, ?_⟩
    · constructor
      · intro hfalse; simp at hfalse
      · intro hlt; omega
    · constructor
      · intro hfalse; simp at hfalse
      · rintro ⟨h1, -⟩; omega
  · refine ⟨fun hgt => absurd hgt hf, fun _ => rfl, by simp, ?_⟩
    simp only [Bool.and_eq_true, Bool.not_eq_true', decide_eq_true_eq,
      decide_eq_false_iff_not]
    constructor
    · rintro ⟨⟨h1, h2⟩, h3⟩
      exact ⟨h1, h2, by simpa using h3⟩
    · rintro ⟨h1, h2, h3⟩
      exact ⟨⟨h1, h2⟩, by simpa using h3⟩

/-! ## Claims -/

/-- C1: for every set of written dates and every `today`, the per-week
computation of `calculate_challenge_status` obeys the spec's case split for
each week of the schedule: a future week reports zero and neither current
nor finished; otherwise the written count is the number of distinct written
dates in `[week.start, min week.end today]`; `is_finished` holds iff
`week.end < today` (in both branches); and `is_current` holds iff
`week.start ≤ today ≤ week.end` and the week is not finished. -/
theorem claim_C1 (written : Finset Int) (today : Int) (w : Week)
    (hw : w ∈ CHALLENGE_WEEKS) :
    (w.start > today →
        (App12.weekStatus written today w).written = 0 ∧
        (App12.weekStatus written today w).is_current = false ∧
        (App12.weekStatus written today w).is_finished = false) ∧
    (w.start ≤ today →
        (App12.weekStatus written today w).written =
          (written.filter (fun d => w.start ≤ d ∧ d ≤ min w.endDate today)).card) ∧
    ((App12.weekStatus written today w).is_finished = true ↔ w.endDate < today) ∧
    ((App12.weekStatus written today w).is_current = true ↔
        (w.start ≤ today ∧ today ≤ w.endDate ∧
          (App12.weekStatus written today w).is_finished = false)) :=
  weekStatus_spec written today w (week_start_le_end hw)

/-- C1 witness: the case split evaluated for week 2 at `today` = 12/17 with
written dates {9, 10, 11, 16}. -/
theorem claim_C1_witness :
    ({ name := "2주차", start := 15, endDate := 21, goal := 5, is_challenge := true } : Week)
        ∈ CHALLENGE_WEEKS ∧
    (App12.weekStatus {9, 10, 11, 16} 17
        { name := "2주차", start := 15, endDate := 21, goal := 5, is_challenge := true }).written =
      (({9, 10, 11, 16} : Finset Int).filter (fun d => 15 ≤ d ∧ d ≤ min 21 17)).card :=
  ⟨by decide,
    (claim_C1 {9, 10, 11, 16} 17
        { name := "2주차", start := 15, endDate := 21, goal := 5, is_challenge := true }
        (by decide)).2.1 (by decide)⟩

/-- C9: `is_current` and `is_finished` are never simultaneously true;
`is_current` is equivalent to the plain condition
`week.start ≤ today ≤ week.end` (the `and not is_finished` conjunct is
redundant); each week is in exactly one of the three states not-begun,
current, finished. -/
theorem claim_C9 (written : Finset Int) (today : Int) (w : Week)
    (hw : w ∈ CHALLENGE_WEEKS) :
    ¬((App12.weekStatus written today w).is_current = true ∧
        (App12.weekStatus written today w).is_finished = true) ∧
    ((App12.weekStatus written today w).is_current = true ↔
        (w.start ≤ today ∧ today ≤ w.endDate)) ∧
    ([decide (w.start > today), (App12.weekStatus written today w).is_current,
        (App12.weekStatus written today w).is_finished].count true = 1) := by
  have h := week_start_le_end hw
  obtain ⟨-, -, hfin, hcur⟩ := weekStatus_spec written today w h
  have hfinF : (App12.weekStatus written today w).is_finished = false ↔
      ¬w.endDate < today := by
    rw [← Bool.not_eq_true]
    exact not_congr hfin
  have hcurF : (App12.weekStatus written today w).is_current = false ↔
      ¬(w.start ≤ today ∧ today ≤ w.endDate ∧
          (App12.weekStatus written today w).is_finished = false) := by
    rw [← Bool.not_eq_true]
    exact not_congr hcur
  refine ⟨?_, ?_, ?_⟩
  · rintro ⟨hc, hf⟩
    obtain ⟨-, h2, h3⟩ := hcur.mp hc
    rw [hf] at h3
    simp at h3
  · constructor
    · intro hc
      exact ⟨(hcur.mp hc).1, (hcur.mp hc).2.1⟩
    · rintro ⟨h1, h2⟩
      exact hcur.mpr ⟨h1, h2, hfinF.mpr (by omega)⟩
  · rcases lt_or_le today w.start with hlt | hle
    · have hc : (App12.weekStatus written today w).is_current = false :=
        hcurF.mpr (fun hh => absurd hh.1 (by omega))
      have hf : (App12.weekStatus written today w).is_finished = false :=
        hfinF.mpr (by omega)
      have hd : decide (w.start > today) = true := decide_eq_true (by omega)
      rw [hd, hc, hf]
      decide
    · rcases le_or_lt today w.endDate with hle2 | hlt2
      · have hf : (App12.weekStatus written today w).is_finished = false :=
          hfinF.mpr (by omega)
        have hc : (App12.weekStatus written today w).is_current = true :=
          hcur.mpr ⟨hle, hle2, hf⟩
        have hd : decide (w.start > today) = false := decide_eq_false (by omega)
        rw [hd, hc, hf]
        decide
      · have hf : (App12.weekStatus written today w).is_finished = true :=
          hfin.mpr hlt2
        have hc : (App12.weekStatus written today w).is_current = false :=
          hcurF.mpr (fun hh => absurd hh.2.1 (by omega))
        have hd : decide (w.start > today) = false := decide_eq_false (by omega)
        rw [hd, hc, hf]
        decide

/-- C9 witness: the exclusivity evaluated for week 1 at `today` = 12/17. -/
theorem claim_C9_witness :
    ({ name := "1주차", start := 8, endDate := 14, goal := 5, is_challenge := true } : Week)
        ∈ CHALLENGE_WEEKS ∧
    ((App12.weekStatus {9, 10, 11, 16} 17
        { name := "1주차", start := 8, endDate := 14, goal := 5, is_challenge := true }).is_current
        = true ↔ ((8 : Int) ≤ 17 ∧ (17 : Int) ≤ 14)) :=
  ⟨by decide,
    (claim_C9 {9, 10, 11, 16} 17
        { name := "1주차", start := 8, endDate := 14, goal := 5, is_challenge := true }
        (by decide)).2.1⟩

/-- C5: the two source variants compute identical progress statistics — the
two `calculate_challenge_status` functions agree on every dataframe and every
`today` — while their `get_motivation_message` functions genuinely disagree
(here at `today` = 12/8 with 0 written days). -/
theorem claim_C5 :
    (∀ (df_member : List Entry) (today : Int),
        App12.calculate_challenge_status df_member today =
          App2.calculate_challenge_status df_member today) ∧
    App12.get_motivation_message 0 20 8 ≠ App2.get_motivation_message 0 20 8 :=
  ⟨fun _ _ => rfl, by
    have h12 : App12.get_motivation_message 0 20 8 = Message.onPace 0 0 := by
      simp only [App12.get_motivation_message, pyInt, TOTAL_CHALLENGE_GOAL]
      norm_num
    have h2 : App2.get_motivation_message 0 20 8 = Message.behindPace 3 3 := by
      simp only [App2.get_motivation_message, pyInt, CHALLENGE_START_DATE, CHALLENGE_END_DATE]
      norm_num
    rw [h12, h2]
    simp⟩

/-- C2: the aggregation step puts a date in the written-day set exactly when
it lies in the inclusive challenge window and carries at least one entry
with non-blank trimmed text, and each such date appears exactly once in the
written-day list no matter how many entries share it. -/
theorem claim_C2 (df_member : List Entry) (today d : Int) :
    (d ∈ (App12.calculate_challenge_status df_member today).written_dates_set ↔
      (CHALLENGE_START_DATE ≤ d ∧ d ≤ CHALLENGE_END_DATE ∧
        ∃ e ∈ df_member, e.date = d ∧ e.text.trim ≠ "")) ∧
    ((App12.calculate_challenge_status df_member today).written_dates.count d =
      if d ∈ (App12.calculate_challenge_status df_member today).written_dates_set
      then 1 else 0) := by
  have hset : (App12.calculate_challenge_status df_member today).written_dates_set =
      (App12.written_dates df_member).toFinset := rfl
  have hlist : (App12.calculate_challenge_status df_member today).written_dates =
      App12.written_dates df_member := rfl
  rw [hset, hlist]
  constructor
  · simp only [App12.written_dates, List.mem_toFinset, List.mem_dedup, List.mem_map,
      List.mem_filter, decide_eq_true_eq]
    constructor
    · rintro ⟨e, ⟨⟨he, hw⟩, ht⟩, hd⟩
      exact ⟨hd ▸ hw.1, hd ▸ hw.2, e, he, hd, ht⟩
    · rintro ⟨h1, h2, e, he, hd, ht⟩
      exact ⟨e, ⟨⟨he, hd ▸ ⟨h1, h2⟩⟩, ht⟩, hd⟩
  · by_cases hmem : d ∈ (App12.written_dates df_member).toFinset
    · rw [if_pos hmem]
      exact List.count_eq_one_of_mem (List.nodup_dedup _) (List.mem_toFinset.mp hmem)
    · rw [if_neg hmem]
      exact List.count_eq_zero_of_not_mem (fun h => hmem (List.mem_toFinset.mpr h))

/-- The achievement rate depends on the week only through its goal and
computed written count. -/
lemma weekStatus_rate (s : Finset Int) (t : Int) (w : Week) :
    (App12.weekStatus s t w).rate =
      if w.goal > 0 then
        min (((App12.weekStatus s t w).written : Rat) / (w.goal : Rat) * 100) 100
      else 0 := rfl

/-- Summing `if is_challenge then written else 0` is summing `written` over
the graded weeks. -/
lemma sum_if_eq_sum_filter (l : List WeekStatus) :
    (l.map (fun s => if s.is_challenge then s.written else 0)).sum =
      ((l.filter (fun s => s.is_challenge)).map (fun s => s.written)).sum := by
  induction l with
  | nil => rfl
  | cons a l ih =>
    by_cases ha : a.is_challenge
    · simp [ha, ih]
    · simp [ha, ih]

/-- C3: the overall total accumulates written counts of graded weeks only
(the bonus week is excluded), the overall completion rate divides by the
fixed constant `TOTAL_CHALLENGE_GOAL = 20`, and on the spec's concrete
scenario (written dates 12/9, 12/10, 12/11, 12/16; today 12/17) the result
is W1: 3 written, finished, rate 60; W2: 1 written, current, rate 20;
graded total 4; completion rate 20. -/
theorem claim_C3 :
    (∀ (df_member : List Entry) (today : Int),
        (App12.calculate_challenge_status df_member today).total_goal = 20 ∧
        TOTAL_CHALLENGE_GOAL = 20 ∧
        (App12.calculate_challenge_status df_member today).total_written_challenge =
          ((((App12.calculate_challenge_status df_member today).weekly_status.filter
              (fun s => s.is_challenge)).map (fun s => s.written)).sum) ∧
        (App12.calculate_challenge_status df_member today).overall_completion_rate =
          min (((App12.calculate_challenge_status df_member today).total_written_challenge : Rat) /
            (20 : Rat) * 100) 100) ∧
    ((App12.challenge_loop [9, 10, 11, 16] 17).weekly_status.map
        (fun s => (s.written, s.is_current, s.is_finished)) =
      [(0, false, true), (3, false, true), (1, true, false), (0, false, false),
        (0, false, false)] ∧
      (App12.challenge_loop [9, 10, 11, 16] 17).weekly_status.map (fun s => s.rate) =
        [0, 60, 20, 0, 0] ∧
      (App12.challenge_loop [9, 10, 11, 16] 17).total_written_challenge = 4 ∧
      (App12.challenge_loop [9, 10, 11, 16] 17).overall_completion_rate = 20) := by
  constructor
  · intro df_member today
    refine ⟨rfl, rfl, ?_, rfl⟩
    exact sum_if_eq_sum_filter _
  · refine ⟨by decide, ?_, by decide, ?_⟩
    · have hW : (App12.challenge_loop [9, 10, 11, 16] 17).weekly_status =
          CHALLENGE_WEEKS.map (App12.weekStatus ([9, 10, 11, 16] : List Int).toFinset 17) := rfl
      have h0 : (App12.weekStatus ([9, 10, 11, 16] : List Int).toFinset 17
          { name := "보너스 주차", start := 3, endDate := 7, goal := 0,
            is_challenge := false }).written = 0 := by decide
      have h1 : (App12.weekStatus ([9, 10, 11, 16] : List Int).toFinset 17
          { name := "1주차", start := 8, endDate := 14, goal := WEEKLY_GOAL,
            is_challenge := true }).written = 3 := by decide
      have h2 : (App12.weekStatus ([9, 10, 11, 16] : List Int).toFinset 17
          { name := "2주차", start := 15, endDate := 21, goal := WEEKLY_GOAL,
            is_challenge := true }).written = 1 := by decide
      have h3 : (App12.weekStatus ([9, 10, 11, 16] : List Int).toFinset 17
          { name := "3주차", start := 22, endDate := 28, goal := WEEKLY_GOAL,
            is_challenge := true }).written = 0 := by decide
      have h4 : (App12.weekStatus ([9, 10, 11, 16] : List Int).toFinset 17
          { name := "4주차", start := 29, endDate := 35, goal := WEEKLY_GOAL,
            is_challenge := true }).written = 0 := by decide
      rw [hW]
      simp only [CHALLENGE_WEEKS, List.map_cons, List.map_nil, weekStatus_rate,
        h0, h1, h2, h3, h4]
      norm_num [WEEKLY_GOAL, min_def]
    · have h : (App12.challenge_loop [9, 10, 11, 16] 17).overall_completion_rate =
          min (((App12.challenge_loop [9, 10, 11, 16] 17).total_written_challenge : Rat) /
            (TOTAL_CHALLENGE_GOAL : Rat) * 100) 100 := rfl
      have ht : (App12.challenge_loop [9, 10, 11, 16] 17).total_written_challenge = 4 := by
        decide
      rw [h, ht]
      norm_num [TOTAL_CHALLENGE_GOAL, min_def]

/-- Python's `int(...)` agrees with the floor on non-negative values. -/
lemma pyInt_of_nonneg {q : Rat} (h : 0 ≤ q) : pyInt q = ⌊q⌋ := if_pos h

/-- app12.py's pacing message matches the spec's clamped formula for every
input, with the challenge window anchored at the first graded week
(12/8 = day 8). -/
lemma app12_motivation_eq_spec (tw today : Int) :
    App12.get_motivation_message tw 20 today = motivateSpec tw 20 today 8 35 := by
  simp only [App12.get_motivation_message, motivateSpec, TOTAL_CHALLENGE_GOAL]
  by_cases hach : tw ≥ ((20 : Nat) : Int)
  · rw [if_pos hach, if_pos hach]
  · rw [if_neg hach, if_neg hach]
    have hE : (if today - 8 + 1 < 0 then 0 else today - 8 + 1) = max 0 (today - 8 + 1) := by
      rcases lt_or_le (today - 8 + 1) 0 with h' | h'
      · rw [if_pos h', max_eq_left h'.le]
      · rw [if_neg (not_lt.mpr h'), max_eq_right h']
    rw [hE]
    have hnn : (0 : Rat) ≤ ((20 : Nat) : Rat) * ((max 0 (today - 8 + 1) : Int) : Rat) /
        ((35 - 8 + 1 : Int) : Rat) := by
      apply div_nonneg
      · apply mul_nonneg (by norm_num)
        exact_mod_cast le_max_left 0 (today - 8 + 1)
      · norm_num
    rw [show ((20 : Nat) : Rat) * (((max 0 (today - 8 + 1) : Int) : Rat) /
        ((35 - 8 + 1 : Int) : Rat)) =
        ((20 : Nat) : Rat) * ((max 0 (today - 8 + 1) : Int) : Rat) /
        ((35 - 8 + 1 : Int) : Rat) from (mul_div_assoc _ _ _).symm]
    rw [pyInt_of_nonneg hnn]

/-- app2.py's pacing message matches the spec's clamped formula (anchored
at the bonus-week start, 12/3 = day 3) whenever `today` is at least day 2,
i.e. whenever the elapsed-day count is non-negative, making the missing
clamps vacuous. -/
lemma app2_motivation_eq_spec (tw today : Int) (h : 2 ≤ today) :
    App2.get_motivation_message tw 20 today = motivateSpec tw 20 today 3 35 := by
  simp only [App2.get_motivation_message, motivateSpec, CHALLENGE_START_DATE,
    CHALLENGE_END_DATE]
  by_cases hach : tw ≥ ((20 : Nat) : Int)
  · rw [if_pos hach, if_pos hach]
  · rw [if_neg hach, if_neg hach]
    have hmax : max 0 (today - 3 + 1) = today - 3 + 1 := max_eq_right (by omega)
    rw [hmax]
    have hnn : (0 : Rat) ≤ ((20 : Nat) : Rat) * ((today - 3 + 1 : Int) : Rat) /
        ((35 - 3 + 1 : Int) : Rat) := by
      apply div_nonneg
      · apply mul_nonneg (by norm_num)
        exact_mod_cast (by omega : (0 : Int) ≤ today - 3 + 1)
      · norm_num
    rw [show ((20 : Nat) : Rat) * (((today - 3 + 1 : Int) : Rat) /
        ((35 - 3 + 1 : Int) : Rat)) =
        ((20 : Nat) : Rat) * ((today - 3 + 1 : Int) : Rat) /
        ((35 - 3 + 1 : Int) : Rat) from (mul_div_assoc _ _ _).symm]
    rw [pyInt_of_nonneg hnn]
    rw [max_eq_right (Int.floor_nonneg.mpr hnn)]

/-- C4 counterexample: at `today` = 2025-11-30 (day 0) with 0 written days,
app2.py's `get_motivation_message` computes a negative expected goal
(`int(20 * (-2/33)) = -1`) because it omits both clamps, and reports an
inflated surplus of 1; the spec's clamped formula yields expected 0 and
surplus 0.  The claim as stated therefore fails on app2.py. -/
theorem claim_C4_counterexample :
    App2.get_motivation_message 0 20 0 ≠ motivateSpec 0 20 0 3 35 ∧
    App2.get_motivation_message 0 20 0 = Message.onPace (-1) 1 ∧
    motivateSpec 0 20 0 3 35 = Message.onPace 0 0 := by
  have h2 : App2.get_motivation_message 0 20 0 = Message.onPace (-1) 1 := by
    have hc : ⌈-((40 : Rat) / 33)⌉ = -1 := by
      rw [Int.ceil_eq_iff]
      constructor <;> norm_num
    simp only [App2.get_motivation_message, pyInt, CHALLENGE_START_DATE, CHALLENGE_END_DATE]
    norm_num [hc]
  have hs : motivateSpec 0 20 0 3 35 = Message.onPace 0 0 := by
    simp only [motivateSpec]
    norm_num
  refine ⟨?_, h2, hs⟩
  rw [h2, hs]
  simp

/-- C4 (amended): for every non-negative `totalWritten` and every `today`,
app12.py's `get_motivation_message` behaves exactly as the spec's formula
(achieved / on-pace / behind-pace with clamped elapsed days and clamped
floored expected goal, anchored at the first graded week); app2.py's
variant, which omits both clamps, matches the formula (anchored at the
bonus-week start) only when `today ≥` day 2, i.e. when the elapsed-day
count is non-negative. -/
theorem claim_C4 (total_written today : Int) (h : 0 ≤ total_written) :
    App12.get_motivation_message total_written 20 today =
      motivateSpec total_written 20 today 8 35 ∧
    (2 ≤ today →
      App2.get_motivation_message total_written 20 today =
        motivateSpec total_written 20 today 3 35) :=
  ⟨app12_motivation_eq_spec total_written today,
    fun h2 => app2_motivation_eq_spec total_written today h2⟩

/-- C4 witness: the amended claim applied at 5 written days, `today` =
12/17. -/
theorem claim_C4_witness :
    (0 : Int) ≤ 5 ∧ (2 : Int) ≤ 17 ∧
    App12.get_motivation_message 5 20 17 = motivateSpec 5 20 17 8 35 ∧
    App2.get_motivation_message 5 20 17 = motivateSpec 5 20 17 3 35 :=
  ⟨by decide, by decide, (claim_C4 5 17 (by decide)).1,
    (claim_C4 5 17 (by decide)).2 (by decide)⟩

/-- Per-week rate bounds: every achievement rate is in [0, 100] and is 0
when the goal is 0. -/
lemma weekStatus_rate_bounds (s : Finset Int) (t : Int) (w : Week) :
    0 ≤ (App12.weekStatus s t w).rate ∧ (App12.weekStatus s t w).rate ≤ 100 ∧
      ((App12.weekStatus s t w).goal = 0 → (App12.weekStatus s t w).rate = 0) := by
  have hg : (App12.weekStatus s t w).goal = w.goal := rfl
  rw [weekStatus_rate, hg]
  by_cases h : w.goal > 0
  · rw [if_pos h]
    refine ⟨le_min ?_ (by norm_num), min_le_right _ _, fun h0 => absurd h0 (by omega)⟩
    apply mul_nonneg _ (by norm_num)
    apply div_nonneg (Nat.cast_nonneg _) (Nat.cast_nonneg _)
  · rw [if_neg h]
    exact ⟨le_refl 0, by norm_num, fun _ => rfl⟩

/-- C6: every per-week rate and the overall completion rate returned by
`calculate_challenge_status` lie in [0, 100]; a week's rate is 0 when its
goal is 0, and over-achievement is clamped to 100. -/
theorem claim_C6 (df_member : List Entry) (today : Int) :
    (App12.calculate_challenge_status df_member today).weekly_status.Forall
      (fun s => 0 ≤ s.rate ∧ s.rate ≤ 100 ∧ (s.goal = 0 → s.rate = 0)) ∧
    0 ≤ (App12.calculate_challenge_status df_member today).overall_completion_rate ∧
    (App12.calculate_challenge_status df_member today).overall_completion_rate ≤ 100 := by
  refine ⟨?_, ?_, ?_⟩
  · rw [List.forall_iff_forall_mem]
    intro s hs
    have hW : (App12.calculate_challenge_status df_member today).weekly_status =
        CHALLENGE_WEEKS.map
          (App12.weekStatus (App12.written_dates df_member).toFinset today) := rfl
    rw [hW] at hs
    obtain ⟨w, -, rfl⟩ := List.mem_map.mp hs
    exact weekStatus_rate_bounds _ _ _
  · have h : (App12.calculate_challenge_status df_member today).overall_completion_rate =
        min (((App12.calculate_challenge_status df_member today).total_written_challenge : Rat)
          / (TOTAL_CHALLENGE_GOAL : Rat) * 100) 100 := rfl
    rw [h]
    refine le_min ?_ (by norm_num)
    apply mul_nonneg _ (by norm_num)
    apply div_nonneg (Nat.cast_nonneg _) (Nat.cast_nonneg _)
  · exact min_le_right _ _

/-- The flag `is_current` reduces to the plain window test. -/
lemma weekStatus_is_current_eq (s : Finset Int) (t : Int) (w : Week) :
    (App12.weekStatus s t w).is_current = decide (w.start ≤ t ∧ t ≤ w.endDate) := by
  simp only [App12.weekStatus]
  split_ifs with hf
  · symm
    apply decide_eq_false
    omega
  · by_cases hA : w.start ≤ t ∧ t ≤ w.endDate
    · rw [decide_eq_true hA]
      have hB : decide (w.endDate < t) = false := decide_eq_false (by omega)
      rw [hB]
      rfl
    · rw [decide_eq_false hA]
      rfl

/-- C7: exactly one week is current whenever `today` lies in the overall
challenge window (in particular strictly inside it), and no week is current
when `today` is before the window starts or after it ends. -/
theorem claim_C7 (df_member : List Entry) (today : Int) :
    ((App12.calculate_challenge_status df_member today).weekly_status.countP
        (fun s => s.is_current)) =
      if CHALLENGE_START_DATE ≤ today ∧ today ≤ CHALLENGE_END_DATE then 1 else 0 := by
  have hW : (App12.calculate_challenge_status df_member today).weekly_status =
      CHALLENGE_WEEKS.map
        (App12.weekStatus (App12.written_dates df_member).toFinset today) := rfl
  rw [hW, List.countP_map]
  simp only [CHALLENGE_WEEKS, List.countP_cons, List.countP_nil, Function.comp,
    weekStatus_is_current_eq, CHALLENGE_START_DATE, CHALLENGE_END_DATE]
  simp only [decide_eq_true_eq]
  split_ifs <;> omega

/-- The `is_challenge` flag is copied from the week definition. -/
lemma weekStatus_is_challenge (s : Finset Int) (t : Int) (w : Week) :
    (App12.weekStatus s t w).is_challenge = w.is_challenge := rfl

/-- A week's written count is at most the number of written dates in the
week's full range. -/
lemma weekStatus_written_le (s : Finset Int) (t : Int) (w : Week) :
    (App12.weekStatus s t w).written ≤
      (s.filter (fun d => w.start ≤ d ∧ d ≤ w.endDate)).card := by
  simp only [App12.weekStatus]
  split_ifs with hf
  · exact Nat.zero_le _
  · apply Finset.card_le_card
    intro d hd
    rw [Finset.mem_filter] at hd ⊢
    exact ⟨hd.1, hd.2.1, le_trans hd.2.2 (min_le_left _ _)⟩

/-- The four graded weeks' ranges are pairwise disjoint, so the filtered
cardinalities sum to at most the cardinality of the whole set. -/
lemma four_graded_filters_card_le (s : Finset Int) :
    (s.filter (fun d => (8 : Int) ≤ d ∧ d ≤ 14)).card +
      ((s.filter (fun d => (15 : Int) ≤ d ∧ d ≤ 21)).card +
        ((s.filter (fun d => (22 : Int) ≤ d ∧ d ≤ 28)).card +
          (s.filter (fun d => (29 : Int) ≤ d ∧ d ≤ 35)).card)) ≤ s.card := by
  classical
  set A := s.filter (fun d => (8 : Int) ≤ d ∧ d ≤ 14) with hA
  set B := s.filter (fun d => (15 : Int) ≤ d ∧ d ≤ 21) with hB
  set C := s.filter (fun d => (22 : Int) ≤ d ∧ d ≤ 28) with hC
  set D := s.filter (fun d => (29 : Int) ≤ d ∧ d ≤ 35) with hD
  have dAB : Disjoint A B := by
    rw [Finset.disjoint_left]
    intro a ha hb
    rw [hA, Finset.mem_filter] at ha
    rw [hB, Finset.mem_filter] at hb
    omega
  have dABC : Disjoint (A ∪ B) C := by
    rw [Finset.disjoint_left]
    intro a ha hc
    rw [Finset.mem_union, hA, hB, Finset.mem_filter, Finset.mem_filter] at ha
    rw [hC, Finset.mem_filter] at hc
    omega
  have dABCD : Disjoint (A ∪ B ∪ C) D := by
    rw [Finset.disjoint_left]
    intro a ha hd
    rw [Finset.mem_union, Finset.mem_union, hA, hB, hC, Finset.mem_filter,
      Finset.mem_filter, Finset.mem_filter] at ha
    rw [hD, Finset.mem_filter] at hd
    omega
  have key : (A ∪ B ∪ C ∪ D).card ≤ s.card := by
    apply Finset.card_le_card
    intro a ha
    rw [Finset.mem_union, Finset.mem_union, Finset.mem_union] at ha
    rcases ha with ((h' | h') | h') | h' <;> exact Finset.mem_of_mem_filter a h'
  have hsum : A.card + (B.card + (C.card + D.card)) = (A ∪ B ∪ C ∪ D).card := by
    rw [Finset.card_union_of_disjoint dABCD, Finset.card_union_of_disjoint dABC,
      Finset.card_union_of_disjoint dAB]
    omega
  omega

/-- C10: the graded total never exceeds the number of distinct written
days, because the graded weeks' date ranges are pairwise disjoint. -/
theorem claim_C10 (df_member : List Entry) (today : Int) :
    (App12.calculate_challenge_status df_member today).total_written_challenge ≤
      (App12.calculate_challenge_status df_member today).written_dates_set.card := by
  have hset : (App12.calculate_challenge_status df_member today).written_dates_set =
      (App12.written_dates df_member).toFinset := rfl
  have htot : (App12.calculate_challenge_status df_member today).total_written_challenge =
      (App12.weekStatus (App12.written_dates df_member).toFinset today
        ⟨"1주차", 8, 14, 5, true⟩).written +
      ((App12.weekStatus (App12.written_dates df_member).toFinset today
        ⟨"2주차", 15, 21, 5, true⟩).written +
      ((App12.weekStatus (App12.written_dates df_member).toFinset today
        ⟨"3주차", 22, 28, 5, true⟩).written +
      (App12.weekStatus (App12.written_dates df_member).toFinset today
        ⟨"4주차", 29, 35, 5, true⟩).written)) := by
    simp [App12.calculate_challenge_status, App12.challenge_loop, CHALLENGE_WEEKS,
      WEEKLY_GOAL, weekStatus_is_challenge]
  have h1 : (App12.weekStatus (App12.written_dates df_member).toFinset today
      ⟨"1주차", 8, 14, 5, true⟩).written ≤
      ((App12.written_dates df_member).toFinset.filter
        (fun d => (8 : Int) ≤ d ∧ d ≤ 14)).card := by
    simpa using weekStatus_written_le (App12.written_dates df_member).toFinset today
      ⟨"1주차", 8, 14, 5, true⟩
  have h2 : (App12.weekStatus (App12.written_dates df_member).toFinset today
      ⟨"2주차", 15, 21, 5, true⟩).written ≤
      ((App12.written_dates df_member).toFinset.filter
        (fun d => (15 : Int) ≤ d ∧ d ≤ 21)).card := by
    simpa using weekStatus_written_le (App12.written_dates df_member).toFinset today
      ⟨"2주차", 15, 21, 5, true⟩
  have h3 : (App12.weekStatus (App12.written_dates df_member).toFinset today
      ⟨"3주차", 22, 28, 5, true⟩).written ≤
      ((App12.written_dates df_member).toFinset.filter
        (fun d => (22 : Int) ≤ d ∧ d ≤ 28)).card := by
    simpa using weekStatus_written_le (App12.written_dates df_member).toFinset today
      ⟨"3주차", 22, 28, 5, true⟩
  have h4 : (App12.weekStatus (App12.written_dates df_member).toFinset today
      ⟨"4주차", 29, 35, 5, true⟩).written ≤
      ((App12.written_dates df_member).toFinset.filter
        (fun d => (29 : Int) ≤ d ∧ d ≤ 35)).card := by
    simpa using weekStatus_written_le (App12.written_dates df_member).toFinset today
      ⟨"4주차", 29, 35, 5, true⟩
  have hkey := four_graded_filters_card_le (App12.written_dates df_member).toFinset
  rw [hset, htot]
  omega

/-- Division with an explicit divide-by-zero error path, to make Python's
`ZeroDivisionError` visible in the embedding. -/
def ratDiv (a b : Rat) : Option Rat := if b = 0 then none else some (a / b)

/-- Embeds `weekStatus` with the rate division routed through `ratDiv`: the fallible
rendering of the per-week loop body. -/
def App12.weekStatusChecked (written_dates_set : Finset Int) (today : Int) (w : Week) :
    Option WeekStatus :=
  let effective_week_end := min w.endDate today
  let written_count : Nat :=
    if w.start > today then 0
    else (written_dates_set.filter (fun d => w.start ≤ d ∧ d ≤ effective_week_end)).card
  let is_finished : Bool :=
    if w.start > today then false else decide (w.endDate < today)
  let is_current : Bool :=
    if w.start > today then false
    else decide (w.start ≤ today ∧ today ≤ w.endDate) && !(decide (w.endDate < today))
  let rate? : Option Rat :=
    if w.goal > 0 then
      (ratDiv (written_count : Rat) ((w.goal : Nat) : Rat)).map (fun q => min (q * 100) 100)
    else some 0
  rate?.map (fun achievement_rate =>
    { name := w.name, start := w.start, endDate := w.endDate, written := written_count,
      goal := w.goal, rate := achievement_rate, is_current := is_current,
      is_finished := is_finished, is_challenge := w.is_challenge })

/-- Runs `weekStatusChecked` over a week list, propagating any failure. -/
def App12.weeklyChecked (s : Finset Int) (today : Int) : List Week → Option (List WeekStatus)
  | [] => some []
  | w :: ws => do
      let st ← App12.weekStatusChecked s today w
      let rest ← App12.weeklyChecked s today ws
      pure (st :: rest)

/-- Embeds `calculate_challenge_status` with every division routed through
`ratDiv`: the fallible rendering of the whole computation. -/
def App12.calculate_challenge_statusChecked (df_member : List Entry) (today : Int) :
    Option ChallengeStatus := do
  let wd := App12.written_dates df_member
  let weekly_status ← App12.weeklyChecked wd.toFinset today CHALLENGE_WEEKS
  let total_written_challenge : Nat :=
    (weekly_status.map (fun s => if s.is_challenge then s.written else 0)).sum
  let overall ← (ratDiv (total_written_challenge : Rat)
    ((TOTAL_CHALLENGE_GOAL : Nat) : Rat)).map (fun q => min (q * 100) 100)
  let result : ChallengeStatus :=
    { weekly_status := weekly_status, overall_completion_rate := overall,
      total_written_challenge := total_written_challenge,
      total_goal := TOTAL_CHALLENGE_GOAL,
      written_dates_set := wd.toFinset, written_dates := wd }
  pure result

/-- app12.py's `get_motivation_message` with its division routed through
`ratDiv`. -/
def App12.get_motivation_messageChecked (total_written : Int) (total_goal : Nat)
    (today : Int) : Option Message :=
  if total_written ≥ (total_goal : Int) then some (.achieved total_goal)
  else
    let elapsed_challenge_days₀ : Int := today - 8 + 1
    let main_challenge_days : Int := 35 - 8 + 1
    let elapsed_challenge_days : Int :=
      if elapsed_challenge_days₀ < 0 then 0 else elapsed_challenge_days₀
    (ratDiv ((elapsed_challenge_days : Int) : Rat) ((main_challenge_days : Int) : Rat)).map
      (fun r =>
        let expected_goal_to_date₀ : Int := pyInt ((TOTAL_CHALLENGE_GOAL : Rat) * r)
        let expected_goal_to_date : Int := max 0 expected_goal_to_date₀
        if total_written ≥ expected_goal_to_date then
          .onPace expected_goal_to_date (total_written - expected_goal_to_date)
        else
          .behindPace expected_goal_to_date (expected_goal_to_date - total_written))

/-- app2.py's `get_motivation_message` with its division routed through
`ratDiv`. -/
def App2.get_motivation_messageChecked (total_written : Int) (total_goal : Nat)
    (today : Int) : Option Message :=
  if total_written ≥ (total_goal : Int) then some (.achieved total_goal)
  else
    let elapsed_days : Int := today - CHALLENGE_START_DATE + 1
    let total_challenge_days : Int := CHALLENGE_END_DATE - CHALLENGE_START_DATE + 1
    (ratDiv ((elapsed_days : Int) : Rat) ((total_challenge_days : Int) : Rat)).map
      (fun r =>
        let expected_goal_to_date : Int := pyInt ((total_goal : Rat) * r)
        if total_written ≥ expected_goal_to_date then
          .onPace expected_goal_to_date (total_written - expected_goal_to_date)
        else
          .behindPace expected_goal_to_date (expected_goal_to_date - total_written))

/-- The per-week division is guarded by `goal > 0`, so the checked loop body
never fails. -/
lemma weekStatusChecked_eq (s : Finset Int) (t : Int) (w : Week) :
    App12.weekStatusChecked s t w = some (App12.weekStatus s t w) := by
  simp only [App12.weekStatusChecked, App12.weekStatus, ratDiv]
  by_cases hg : w.goal > 0
  · rw [if_pos hg]
    have hne : ((w.goal : Nat) : Rat) ≠ 0 := Nat.cast_ne_zero.mpr (by omega)
    rw [if_neg hne, if_pos hg]
    rfl
  · rw [if_neg hg, if_neg hg]
    rfl

/-- The checked week loop never fails on any week list. -/
lemma weeklyChecked_eq (s : Finset Int) (t : Int) (l : List Week) :
    App12.weeklyChecked s t l = some (l.map (App12.weekStatus s t)) := by
  induction l with
  | nil => rfl
  | cons w ws ih =>
    simp [App12.weeklyChecked, weekStatusChecked_eq, ih]

/-- C8: the computation is total — with every division made explicitly
fallible, `calculate_challenge_status` and both variants of
`get_motivation_message` still return a result on every input: the per-week
division is guarded by `goal > 0`, the overall division is by the constant
20, and the pacing denominators (28 and 33 days) are positive. -/
theorem claim_C8 (df_member : List Entry) (today total_written : Int) (total_goal : Nat) :
    App12.calculate_challenge_statusChecked df_member today =
      some (App12.calculate_challenge_status df_member today) ∧
    App12.get_motivation_messageChecked total_written total_goal today =
      some (App12.get_motivation_message total_written total_goal today) ∧
    App2.get_motivation_messageChecked total_written total_goal today =
      some (App2.get_motivation_message total_written total_goal today) := by
  refine ⟨?_, ?_, ?_⟩
  · simp only [App12.calculate_challenge_statusChecked, App12.calculate_challenge_status,
      App12.challenge_loop, weeklyChecked_eq, ratDiv]
    have hne : ((TOTAL_CHALLENGE_GOAL : Nat) : Rat) ≠ 0 := by
      norm_num [TOTAL_CHALLENGE_GOAL]
    simp only [if_neg hne, Option.map_some, Option.bind_some, Option.some_bind]
    rfl
  · simp only [App12.get_motivation_messageChecked, App12.get_motivation_message, ratDiv]
    by_cases hach : total_written ≥ ((total_goal : Nat) : Int)
    · rw [if_pos hach, if_pos hach]
    · rw [if_neg hach, if_neg hach]
      have hne : ((35 - 8 + 1 : Int) : Rat) ≠ 0 := by norm_num
      rw [if_neg hne]
      rfl
  · simp only [App2.get_motivation_messageChecked, App2.get_motivation_message, ratDiv,
      CHALLENGE_START_DATE, CHALLENGE_END_DATE]
    by_cases hach : total_written ≥ ((total_goal : Nat) : Int)
    · rw [if_pos hach, if_pos hach]
    · rw [if_neg hach, if_neg hach]
      have hne : ((35 - 3 + 1 : Int) : Rat) ≠ 0 := by norm_num
      rw [if_neg hne]
      rfl
